import Mathlib

/- Shallow embedding of the OpenFCU control core (buttons.ino):
   the input debouncer, the shot executor and the fire-control state machine.

   Modelling conventions:
   - Digital pin levels are the two-valued type `Level` (`low`/`high`); a button
     reads `low` when pressed (`INPUT_PULLUP` wiring, `BUTTON_PRESSED == LOW`).
   - `millis()` timestamps are naturals; the C `unsigned long` subtraction used
     by the debouncer is modelled exactly as subtraction modulo 2^32 (`usub`).
   - The Arduino globals (the `buttons[]` array, `settings`, `shotCount`,
     `currBurstShotCount`, `reloadStatus`, `status`) become an explicit state
     value (`Machine`) threaded through every function.
   - Hardware side effects (digitalWrite / delay) become an explicit event list
     (`OutEvent`) returned next to the new state.
   - `digitalRead` inputs are parameters: the levels sampled by
     `readAllButtons` at the start of a loop iteration form the `snap` field of
     `LoopIn`, while the level returned by the `digitalRead(triggerPin)` that
     `isTriggerPressed` performs at decision time is the `live` field.
   - The settings menu (menu.ino) is outside the fire-control core; per the
     spec's collaborator contract its per-cycle result (`updateMenu`) and its
     edited settings snapshot (`tempSettings`) are external inputs (`MenuIn`).
     `commitSettings` itself is embedded from the source.
   - The compile-time switches `DEBUG_ENABLED`, `APPLY_BINARY_TRIGGER_TO_FULL_AUTO`
     and `APPLY_BINARY_TRIGGER_TO_FULL_AUTO_BURST` are all commented out in the
     source, so the embedding follows the corresponding preprocessor branches. -/

namespace OpenFCU

/-- Digital pin level as read or written by the Arduino runtime. -/
inductive Level
  | low
  | high
deriving DecidableEq, Repr

/-- Buttons are wired active-low: `#define BUTTON_PRESSED LOW`. -/
def BUTTON_PRESSED : Level := Level.low

/-- Released level: `#define BUTTON_RELEASED HIGH`. -/
def BUTTON_RELEASED : Level := Level.high

/-- Solenoid energized level: `#define SOLENOID_ON HIGH`. -/
def SOLENOID_ON : Level := Level.high

/-- Solenoid de-energized level: `#define SOLENOID_OFF LOW`. -/
def SOLENOID_OFF : Level := Level.low

/-- Modulus of the C `unsigned long` (32-bit on the target AVR toolchain). -/
def U32 : Nat := 2 ^ 32

/-- C `unsigned long` subtraction `a - b`, i.e. subtraction modulo `2^32`;
this is how the source compares `millis()` timestamps. -/
def usub (a b : Nat) : Nat := ((a % U32) + U32 - (b % U32)) % U32

/-- Global debounce window: `unsigned long buttonsDebouncingTimeMs = 50`. -/
def buttonsDebouncingTimeMs : Nat := 50

/-- Per-button state, from `struct tagButtonData` (the constant `pin` field is
represented by the environment instead of being stored in the record). -/
structure ButtonData where
  startTimeMs : Nat
  buttonStatus : Level
  lastValidStatus : Level
  precStatusIsPressed : Bool
deriving DecidableEq, Repr

/-- Initial per-button record from the `buttons[]` initializer:
`{pin, 0, BUTTON_RELEASED, BUTTON_RELEASED, false}`. -/
def initButtonData : ButtonData :=
  { startTimeMs := 0
    buttonStatus := BUTTON_RELEASED
    lastValidStatus := BUTTON_RELEASED
    precStatusIsPressed := false }

/-- One debouncer poll of a single channel (`readButtonWithDebouncing`):
`timeNow` is the `millis()` sample and `statusNow` the `digitalRead` sample. -/
def readButtonWithDebouncing (timeNow : Nat) (statusNow : Level) (bd : ButtonData) :
    ButtonData :=
  let bd1 := if statusNow ≠ bd.buttonStatus then
      { bd with startTimeMs := timeNow, buttonStatus := statusNow }
    else bd
  if buttonsDebouncingTimeMs < usub timeNow bd1.startTimeMs then
    { bd1 with lastValidStatus := bd1.buttonStatus }
  else bd1

/-- Press duration of a single channel (`buttonPressDuration`): elapsed
`millis()` time since `startTimeMs` while debounced-pressed, else 0. -/
def buttonPressDuration (timeNow : Nat) (bd : ButtonData) : Nat :=
  if bd.lastValidStatus = BUTTON_PRESSED then usub timeNow bd.startTimeMs else 0

/-- Edge detector of a single channel (`thereIsANewPress`): true exactly on a
debounced-released-to-pressed transition; mutates `precStatusIsPressed`. -/
def thereIsANewPress (bd : ButtonData) : Bool × ButtonData :=
  if bd.lastValidStatus ≠ BUTTON_PRESSED then
    (false, { bd with precStatusIsPressed := false })
  else if bd.precStatusIsPressed then
    (false, bd)
  else
    (true, { bd with precStatusIsPressed := true })

/-- Fold a list of `(millis, raw level)` poll samples through the debouncer. -/
def runPolls (bd : ButtonData) : List (Nat × Level) → ButtonData
  | [] => bd
  | (t, v) :: rest => runPolls (readButtonWithDebouncing t v bd) rest

/-- Fold debouncer polls that all sample the same held raw level `v`. -/
def runHold (v : Level) (bd : ButtonData) : List Nat → ButtonData
  | [] => bd
  | t :: rest => runHold v (readButtonWithDebouncing t v bd) rest

/-- Drive the edge detector with a trace of debounced states: each poll first
sets `lastValidStatus` to the trace value (the debouncer's committed snapshot
for that cycle) and then queries `thereIsANewPress`; returns the results. -/
def runEdgePolls (bd : ButtonData) : List Level → List Bool
  | [] => []
  | v :: rest =>
    let r := thereIsANewPress { bd with lastValidStatus := v }
    r.1 :: runEdgePolls r.2 rest

/-- Modelled from the spec: the time "the raw state last changed" along a poll
trace, given the channel's current raw level `cur` and its current
`rawChangeTimeMs` `t0`; used to compare `startTimeMs` against the spec. -/
def lastRawChangeTime (cur : Level) (t0 : Nat) : List (Nat × Level) → Nat
  | [] => t0
  | (t, v) :: rest =>
    if v = cur then lastRawChangeTime cur t0 rest else lastRawChangeTime v t rest

/-- Configuration record from `struct tagSettings`. -/
structure Settings where
  shotDelayMs : Nat
  burstDelayMs : Nat
  dwellMs : Nat
  triggerDebouncingMs : Nat
  numShotsPerBurst : Nat
  shotLimit : Nat
  fullAutoBurst : Bool
  binaryTrigger : Bool
  forceReload : Bool
  muzzleFlash : Bool
  invertedFireSelector : Bool
deriving DecidableEq, Repr

/-- Compiled-in default settings (the field initializers of `tagSettings`). -/
def defaultSettings : Settings :=
  { shotDelayMs := 200
    burstDelayMs := 400
    dwellMs := 200
    triggerDebouncingMs := 50
    numShotsPerBurst := 3
    shotLimit := 30
    fullAutoBurst := false
    binaryTrigger := false
    forceReload := true
    muzzleFlash := false
    invertedFireSelector := false }

def STATUS_IDLE : Nat := 0
def STATUS_SEMI_AUTO : Nat := 1
def STATUS_FULL_AUTO : Nat := 2
def STATUS_BINARY_TRIGGER_TAIL : Nat := 3
def STATUS_RELOAD : Nat := 4
def STATUS_MENU : Nat := 5

def RELOAD_WAITING_FOR_MAGAZINE_OUT : Nat := 0
def RELOAD_WAITING_FOR_MAGAZINE_IN : Nat := 1

def MENU_CONTINUE : Nat := 0
def MENU_SAVE_AND_EXIT : Nat := 1
def MENU_DISCARD_AND_EXIT : Nat := 2

def ID_BUTTON_FIRE_SELECTOR : Nat := 0
def ID_BUTTON_MAGAZINE : Nat := 1
def ID_BUTTON_JOY_UP : Nat := 2
def ID_BUTTON_JOY_LEFT : Nat := 3
def ID_BUTTON_JOY_SELECT : Nat := 4
def ID_BUTTON_JOY_RIGHT : Nat := 5
def ID_BUTTON_JOY_DOWN : Nat := 6

/-- The `buttons[]` array, one `ButtonData` per debounced channel, in the
source's index order (the trigger is NOT in this array: the source reads it
raw via `digitalRead(triggerPin)` in `isTriggerPressed`). -/
structure Buttons where
  fireSelector : ButtonData
  magazine : ButtonData
  joyUp : ButtonData
  joyLeft : ButtonData
  joySelect : ButtonData
  joyRight : ButtonData
  joyDown : ButtonData
deriving DecidableEq, Repr

/-- Index the button record by the source's 0-based button id; only ids 0..6
occur in the source, larger ids fall through to the last entry. -/
def getButton (b : Buttons) : Nat → ButtonData
  | 0 => b.fireSelector
  | 1 => b.magazine
  | 2 => b.joyUp
  | 3 => b.joyLeft
  | 4 => b.joySelect
  | 5 => b.joyRight
  | _ => b.joyDown

/-- All channels released at startup (the `buttons[]` initializer list). -/
def initButtons : Buttons :=
  { fireSelector := initButtonData
    magazine := initButtonData
    joyUp := initButtonData
    joyLeft := initButtonData
    joySelect := initButtonData
    joyRight := initButtonData
    joyDown := initButtonData }

/-- Raw levels of all input pins at one sampling instant. `trigger` is only
ever read by `isTriggerPressed` (raw, undebounced); the remaining fields are
the pins sampled by `readAllButtons` through the debouncer. -/
structure Pins where
  trigger : Level
  fireSelector : Level
  magazine : Level
  joyUp : Level
  joyLeft : Level
  joySelect : Level
  joyRight : Level
  joyDown : Level
deriving DecidableEq, Repr

/-- All pins pulled up (idle, nothing pressed). -/
def pinsIdle : Pins :=
  { trigger := Level.high
    fireSelector := Level.high
    magazine := Level.high
    joyUp := Level.high
    joyLeft := Level.high
    joySelect := Level.high
    joyRight := Level.high
    joyDown := Level.high }

/-- The whole-program mutable state: the `buttons[]` array plus the globals
`settings`, `shotCount`, `currBurstShotCount`, `reloadStatus` and `status`. -/
structure Machine where
  buttons : Buttons
  settings : Settings
  shotCount : Nat
  currBurstShotCount : Nat
  reloadStatus : Nat
  status : Nat
deriving DecidableEq, Repr

/-- One `readAllButtons()` pass: every debounced channel is polled once with
the same `millis()` sample and the raw snapshot `snap`. -/
def readAllButtons (timeNow : Nat) (snap : Pins) (m : Machine) : Machine :=
  { m with buttons :=
    { fireSelector := readButtonWithDebouncing timeNow snap.fireSelector m.buttons.fireSelector
      magazine := readButtonWithDebouncing timeNow snap.magazine m.buttons.magazine
      joyUp := readButtonWithDebouncing timeNow snap.joyUp m.buttons.joyUp
      joyLeft := readButtonWithDebouncing timeNow snap.joyLeft m.buttons.joyLeft
      joySelect := readButtonWithDebouncing timeNow snap.joySelect m.buttons.joySelect
      joyRight := readButtonWithDebouncing timeNow snap.joyRight m.buttons.joyRight
      joyDown := readButtonWithDebouncing timeNow snap.joyDown m.buttons.joyDown } }

/-- Debounced read of a channel by id (`buttonIsPressed`). -/
def buttonIsPressed (buttonId : Nat) (m : Machine) : Bool :=
  (getButton m.buttons buttonId).lastValidStatus = BUTTON_PRESSED

/-- Raw trigger read (`isTriggerPressed`): `digitalRead(triggerPin)` at
decision time, NOT the debounced snapshot. -/
def isTriggerPressed (live : Pins) : Bool :=
  live.trigger = BUTTON_PRESSED

/-- Debounced magazine read (`isMagazineButtonPressed`). -/
def isMagazineButtonPressed (m : Machine) : Bool :=
  buttonIsPressed ID_BUTTON_MAGAZINE m

/-- Fire-selector decode (`isFireSelectorInAutoPosition`), honouring the
`invertedFireSelector` setting. -/
def isFireSelectorInAutoPosition (m : Machine) : Bool :=
  let isFireSelectorPressed := buttonIsPressed ID_BUTTON_FIRE_SELECTOR m
  if m.settings.invertedFireSelector then !isFireSelectorPressed else isFireSelectorPressed

/-- Edge query on the joystick select channel (`thereIsANewJoySelectPress`);
consumes the edge by mutating that channel's `precStatusIsPressed`. -/
def thereIsANewJoySelectPress (m : Machine) : Bool × Machine :=
  let r := thereIsANewPress m.buttons.joySelect
  (r.1, { m with buttons := { m.buttons with joySelect := r.2 } })

/-- One hardware action of the shot path: a `digitalWrite` or a `delay`. -/
inductive OutEvent
  | solenoidWrite (l : Level)
  | muzzleWrite (l : Level)
  | delayMs (ms : Nat)
deriving DecidableEq, Repr

/-- The output/delay sequence of one fired shot, from the body of `doOneShot`:
with `muzzleFlash` the muzzle pin pulses in sync with the solenoid. -/
def shotPulse (s : Settings) : List OutEvent :=
  if s.muzzleFlash then
    [OutEvent.solenoidWrite SOLENOID_ON, OutEvent.muzzleWrite Level.high,
     OutEvent.delayMs s.dwellMs, OutEvent.solenoidWrite SOLENOID_OFF,
     OutEvent.muzzleWrite Level.low, OutEvent.delayMs s.shotDelayMs]
  else
    [OutEvent.solenoidWrite SOLENOID_ON, OutEvent.delayMs s.dwellMs,
     OutEvent.solenoidWrite SOLENOID_OFF, OutEvent.delayMs s.shotDelayMs]

/-- Number of shots in an event trace: solenoid energize edges. -/
def shotsFired : List OutEvent → Nat
  | [] => 0
  | OutEvent.solenoidWrite l :: rest =>
    (if l = SOLENOID_ON then 1 else 0) + shotsFired rest
  | _ :: rest => shotsFired rest

/-- The shot executor (`doOneShot`): returns false (firing nothing, changing
nothing) iff `forceReload` is set and the shot limit is reached; otherwise
increments `shotCount` when `forceReload` is set and fires one shot. -/
def doOneShot (m : Machine) : Bool × Machine × List OutEvent :=
  if m.settings.forceReload then
    if m.settings.shotLimit ≤ m.shotCount then
      (false, m, [])
    else
      (true, { m with shotCount := m.shotCount + 1 }, shotPulse m.settings)
  else
    (true, m, shotPulse m.settings)

/-- Entry into RELOAD (`transitionToStatusReload`): reload phase starts at
`RELOAD_WAITING_FOR_MAGAZINE_OUT`. -/
def transitionToStatusReload (m : Machine) : Machine :=
  { m with reloadStatus := RELOAD_WAITING_FOR_MAGAZINE_OUT, status := STATUS_RELOAD }

/-- Entry into IDLE (`transitionToStatusIdle`). -/
def transitionToStatusIdle (m : Machine) : Machine :=
  { m with status := STATUS_IDLE }

/-- Entry into SEMI_AUTO (`transitionToStatusSemiAuto`); resets the burst
counter. -/
def transitionToStatusSemiAuto (m : Machine) : Machine :=
  { m with currBurstShotCount := 0, status := STATUS_SEMI_AUTO }

/-- Entry into FULL_AUTO (`transitionToStatusFullAuto`); note the source does
NOT reset `currBurstShotCount` here. -/
def transitionToStatusFullAuto (m : Machine) : Machine :=
  { m with status := STATUS_FULL_AUTO }

/-- Entry into BINARY_TRIGGER_TAIL (`transitionToStatusBinaryTriggerTail`);
resets the burst counter. -/
def transitionToStatusBinaryTriggerTail (m : Machine) : Machine :=
  { m with currBurstShotCount := 0, status := STATUS_BINARY_TRIGGER_TAIL }

/-- Entry into MENU (`transitionToStatusMenu`); the `displayFirstMenuPage`
call it makes is menu-collaborator work with no core state. -/
def transitionToStatusMenu (m : Machine) : Machine :=
  { m with status := STATUS_MENU }

/-- One burst step (`doNextShotAndGoToStatusReloadIfShotError`): fires the
next shot of the burst if any remains (routing to RELOAD on shot error) and
returns true exactly when the burst is already done. -/
def doNextShotAndGoToStatusReloadIfShotError (numShotsRequired : Nat) (m : Machine) :
    Bool × Machine × List OutEvent :=
  if m.currBurstShotCount < numShotsRequired then
    let r := doOneShot m
    if r.1 then
      (false, { r.2.1 with currBurstShotCount := r.2.1.currBurstShotCount + 1 }, r.2.2)
    else
      (false, transitionToStatusReload r.2.1, r.2.2)
  else
    (true, m, [])

/-- SEMI_AUTO handler (`manageStatusSemiAuto`). The source's
`APPLY_BINARY_TRIGGER_TO_FULL_AUTO_BURST` define is commented out, so the
`fullAutoBurst` early-exit on trigger release is compiled in. -/
def manageStatusSemiAuto (live : Pins) (m : Machine) : Machine × List OutEvent :=
  let r := doNextShotAndGoToStatusReloadIfShotError m.settings.numShotsPerBurst m
  if !r.1 then
    (r.2.1, r.2.2)
  else
    let m1 := r.2.1
    if isFireSelectorInAutoPosition m1 then
      (transitionToStatusIdle m1, r.2.2)
    else if isTriggerPressed live then
      if !m1.settings.fullAutoBurst then
        (m1, r.2.2)
      else
        ({ m1 with currBurstShotCount := 0 },
         r.2.2 ++ [OutEvent.delayMs m1.settings.burstDelayMs])
    else if m1.settings.fullAutoBurst then
      (transitionToStatusIdle m1,
       r.2.2 ++ [OutEvent.delayMs m1.settings.triggerDebouncingMs])
    else if m1.settings.binaryTrigger then
      (transitionToStatusBinaryTriggerTail m1, r.2.2)
    else
      (transitionToStatusIdle m1,
       r.2.2 ++ [OutEvent.delayMs m1.settings.triggerDebouncingMs])

/-- FULL_AUTO handler (`manageStatusFullAuto`). The source's
`APPLY_BINARY_TRIGGER_TO_FULL_AUTO` define is commented out, so trigger
release always returns to IDLE. -/
def manageStatusFullAuto (live : Pins) (m : Machine) : Machine × List OutEvent :=
  if !isFireSelectorInAutoPosition m then
    (transitionToStatusIdle m, [])
  else
    let r := doOneShot m
    if !r.1 then
      (transitionToStatusReload r.2.1, r.2.2)
    else if !isTriggerPressed live then
      (transitionToStatusIdle r.2.1,
       r.2.2 ++ [OutEvent.delayMs r.2.1.settings.triggerDebouncingMs])
    else
      (r.2.1, r.2.2)

/-- BINARY_TRIGGER_TAIL handler (`manageStatusBinaryTriggerTail`). -/
def manageStatusBinaryTriggerTail (m : Machine) : Machine × List OutEvent :=
  let r := doNextShotAndGoToStatusReloadIfShotError m.settings.numShotsPerBurst m
  if !r.1 then
    (r.2.1, r.2.2)
  else
    (transitionToStatusIdle r.2.1, r.2.2)

/-- RELOAD handler (`manageStatusReload`): waits for the magazine to be
observed out and then in again; any other `reloadStatus` value is the
defensive no-op of the source's `default:` branch. -/
def manageStatusReload (m : Machine) : Machine :=
  if m.reloadStatus = RELOAD_WAITING_FOR_MAGAZINE_OUT then
    if !isMagazineButtonPressed m then
      { m with reloadStatus := RELOAD_WAITING_FOR_MAGAZINE_IN }
    else m
  else if m.reloadStatus = RELOAD_WAITING_FOR_MAGAZINE_IN then
    if isMagazineButtonPressed m then
      transitionToStatusIdle { m with shotCount := 0 }
    else m
  else m

/-- The menu commit (`commitSettings`): compares the live settings with the
menu's edited snapshot field by field; on any difference the snapshot
replaces the live settings wholesale. -/
def commitSettings (tempSettings : Settings) (s : Settings) : Bool × Settings :=
  if s.binaryTrigger = tempSettings.binaryTrigger ∧
     s.forceReload = tempSettings.forceReload ∧
     s.fullAutoBurst = tempSettings.fullAutoBurst ∧
     s.invertedFireSelector = tempSettings.invertedFireSelector ∧
     s.muzzleFlash = tempSettings.muzzleFlash ∧
     s.burstDelayMs = tempSettings.burstDelayMs ∧
     s.shotDelayMs = tempSettings.shotDelayMs ∧
     s.dwellMs = tempSettings.dwellMs ∧
     s.triggerDebouncingMs = tempSettings.triggerDebouncingMs ∧
     s.numShotsPerBurst = tempSettings.numShotsPerBurst ∧
     s.shotLimit = tempSettings.shotLimit then
    (false, s)
  else
    (true, tempSettings)

/-- Menu save path (`saveNewSettingsToEepromAndDisplayExitMessage`): commits
the menu snapshot into the live settings; the EEPROM write and the exit
message are I/O outside the core state. -/
def saveNewSettingsToEepromAndDisplayExitMessage (tempSettings : Settings) (m : Machine) :
    Machine :=
  let r := commitSettings tempSettings m.settings
  { m with settings := r.2 }

/-- External input from the Menu collaborator for one cycle, per the spec's
collaborator contract: the `updateMenu()` result and the edited settings
snapshot (`tempSettings`) that `commitSettings` reads. -/
structure MenuIn where
  menuCmd : Nat
  tempSettings : Settings
deriving DecidableEq, Repr

/-- MENU handler (`manageStatusMenu`): dispatch on the `updateMenu` result. -/
def manageStatusMenu (mi : MenuIn) (m : Machine) : Machine :=
  if mi.menuCmd = MENU_SAVE_AND_EXIT then
    transitionToStatusIdle (saveNewSettingsToEepromAndDisplayExitMessage mi.tempSettings m)
  else if mi.menuCmd = MENU_DISCARD_AND_EXIT then
    transitionToStatusIdle m
  else m

/-- IDLE handler (`manageStatusIdle`): the trigger decision uses the RAW
trigger level (`isTriggerPressed` does `digitalRead` at decision time). -/
def manageStatusIdle (live : Pins) (m : Machine) : Machine :=
  if isTriggerPressed live then
    if isFireSelectorInAutoPosition m then
      transitionToStatusFullAuto m
    else
      transitionToStatusSemiAuto m
  else
    let r := thereIsANewJoySelectPress m
    if r.1 then transitionToStatusMenu r.2 else r.2

/-- The environment of one `loop()` iteration: the `millis()` sample and raw
pin snapshot consumed by `readAllButtons` at the start of the iteration, the
raw pin levels at handler decision time (`live`, consumed only by the raw
`digitalRead` in `isTriggerPressed`), and the Menu collaborator input. -/
structure LoopIn where
  timeNow : Nat
  snap : Pins
  live : Pins
  menuIn : MenuIn
deriving DecidableEq, Repr

/-- One `loop()` iteration: `readAllButtons` then the status dispatch. -/
def loopStep (inp : LoopIn) (m : Machine) : Machine × List OutEvent :=
  let m1 := readAllButtons inp.timeNow inp.snap m
  if m1.status = STATUS_IDLE then
    (manageStatusIdle inp.live m1, [])
  else if m1.status = STATUS_FULL_AUTO then
    manageStatusFullAuto inp.live m1
  else if m1.status = STATUS_SEMI_AUTO then
    manageStatusSemiAuto inp.live m1
  else if m1.status = STATUS_BINARY_TRIGGER_TAIL then
    manageStatusBinaryTriggerTail m1
  else if m1.status = STATUS_RELOAD then
    (manageStatusReload m1, [])
  else if m1.status = STATUS_MENU then
    (manageStatusMenu inp.menuIn m1, [])
  else
    (m1, [])

/-- Iterate `loop()` over a list of per-iteration environments, concatenating
the emitted hardware events. -/
def runLoop : List LoopIn → Machine → Machine × List OutEvent
  | [], m => (m, [])
  | inp :: rest, m =>
    let r := loopStep inp m
    let r2 := runLoop rest r.1
    (r2.1, r.2 ++ r2.2)

/-- Set the debounced magazine observation for one cycle (what the debouncer
committed into `lastValidStatus` before the RELOAD handler runs). -/
def setMagazineObserved (present : Bool) (m : Machine) : Machine :=
  { m with buttons := { m.buttons with magazine :=
      { m.buttons.magazine with
        lastValidStatus := if present then BUTTON_PRESSED else BUTTON_RELEASED } } }

/-- Run the RELOAD episode over a trace of per-cycle debounced magazine
observations: each cycle the observation is committed and, while the machine
is still in RELOAD, the loop dispatches `manageStatusReload` (after the
transition to IDLE the loop dispatches other handlers instead). -/
def runReload (m : Machine) : List Bool → Machine
  | [] => m
  | present :: rest =>
    let m1 := setMagazineObserved present m
    let m2 := if m1.status = STATUS_RELOAD then manageStatusReload m1 else m1
    runReload m2 rest

/-- Machine state after `setup()`: `shotCount = 0`, status IDLE, all button
channels released; `settings` as loaded (defaults on first boot). -/
def initialMachine (s : Settings) : Machine :=
  { buttons := initButtons
    settings := s
    shotCount := 0
    currBurstShotCount := 0
    reloadStatus := RELOAD_WAITING_FOR_MAGAZINE_OUT
    status := STATUS_IDLE }

/- Concrete fixtures used to instantiate the theorems below. -/

/-- Raw pin snapshot with only the trigger pulled. -/
def pinsTriggerPulled : Pins := { pinsIdle with trigger := Level.low }

/-- Menu collaborator input while the menu stays open. -/
def menuContinue : MenuIn := { menuCmd := MENU_CONTINUE, tempSettings := defaultSettings }

/-- Machine as booted with the default settings. -/
def mBoot : Machine := initialMachine defaultSettings

/-- Machine in SEMI_AUTO with 29 of the 30 allowed shots already fired. -/
def mSemi29 : Machine := { mBoot with shotCount := 29, status := STATUS_SEMI_AUTO }

/-- Loop environment: idle snapshot, raw trigger pulled at decision time. -/
def loopInTriggerPulled : LoopIn :=
  { timeNow := 100, snap := pinsIdle, live := pinsTriggerPulled, menuIn := menuContinue }

/-- Same environment but with the raw trigger released at decision time. -/
def loopInTriggerIdle : LoopIn := { loopInTriggerPulled with live := pinsIdle }

/-- Same environment as `loopInTriggerPulled` but with a different raw level
on a non-trigger pin at decision time. -/
def loopInTriggerPulledJoyHeld : LoopIn :=
  { loopInTriggerPulled with live := { pinsTriggerPulled with joyUp := Level.low } }

/-- Button array whose debounced fire selector reads pressed (auto). -/
def selectorAutoButtons : Buttons :=
  { initButtons with fireSelector := { initButtonData with lastValidStatus := BUTTON_PRESSED } }

/-- Machine in IDLE right after a completed 3-shot burst (the burst counter
equals the burst size), with the fire selector now in the auto position. -/
def mIdleAfterBurst : Machine :=
  { mBoot with buttons := selectorAutoButtons, shotCount := 3, currBurstShotCount := 3 }

/-- Machine in IDLE right after a completed burst, selector not in auto. -/
def mIdleSelectorSemi : Machine := { mBoot with currBurstShotCount := 3 }

/-- Raw pin snapshot with only the joystick select pulled. -/
def snapJoyPulled : Pins := { pinsIdle with joySelect := Level.low }

/-- Menu-edited settings snapshot with the shot limit lowered to 1 (the menu
UI allows any shot-limit value down to `SETTING_NUM_SHOT_VALUE_MIN = 1`). -/
def lowLimitSettings : Settings := { defaultSettings with shotLimit := 1 }

/-- Menu collaborator input that saves the lowered shot limit. -/
def menuSaveLowLimit : MenuIn :=
  { menuCmd := MENU_SAVE_AND_EXIT, tempSettings := lowLimitSettings }

/-- A boot-to-violation input trace: pull the trigger for one iteration (the
3-shot SEMI_AUTO burst then runs for three more iterations), release it, hold
the joystick select until its debounce window passes (entering MENU), then
save settings whose shot limit is below the 3 shots already fired. -/
def shotLimitRun : List LoopIn :=
  [ { timeNow := 100, snap := pinsIdle, live := pinsTriggerPulled, menuIn := menuContinue },
    { timeNow := 200, snap := pinsIdle, live := pinsTriggerPulled, menuIn := menuContinue },
    { timeNow := 300, snap := pinsIdle, live := pinsTriggerPulled, menuIn := menuContinue },
    { timeNow := 400, snap := pinsIdle, live := pinsTriggerPulled, menuIn := menuContinue },
    { timeNow := 500, snap := snapJoyPulled, live := pinsIdle, menuIn := menuContinue },
    { timeNow := 600, snap := snapJoyPulled, live := pinsIdle, menuIn := menuContinue },
    { timeNow := 700, snap := snapJoyPulled, live := pinsIdle, menuIn := menuSaveLowLimit } ]

/-- Default settings with force-reload disabled. -/
def noForceSettings : Settings := { defaultSettings with forceReload := false }

/-- Menu collaborator input whose snapshot keeps force-reload disabled. -/
def menuContinueNoForce : MenuIn := { menuCmd := MENU_CONTINUE, tempSettings := noForceSettings }

/-- Loop environment with the trigger pulled and a no-force menu snapshot. -/
def loopInNoForce : LoopIn := { loopInTriggerPulled with menuIn := menuContinueNoForce }

/-- Channel whose raw level changed to pressed at time 100 (not yet
committed to the debounced state). -/
def bdChanged100 : ButtonData :=
  { initButtonData with startTimeMs := 100, buttonStatus := Level.low }

/- Helper lemmas about the modular `millis()` subtraction. -/

theorem usub_self (a : Nat) : usub a a = 0 := by
  have h : a % U32 < U32 := Nat.mod_lt _ (by norm_num [U32])
  have h2 : a % U32 + U32 - a % U32 = U32 := by omega
  rw [usub, h2, Nat.mod_self]

theorem usub_eq_sub {a b : Nat} (hba : b ≤ a) (ha : a < U32) : usub a b = a - b := by
  have hb : b < U32 := lt_of_le_of_lt hba ha
  have h1 : a + U32 - b = a - b + U32 := by omega
  rw [usub, Nat.mod_eq_of_lt ha, Nat.mod_eq_of_lt hb, h1, Nat.add_mod_right,
    Nat.mod_eq_of_lt (by omega)]

/- C2: the shot executor's contract. -/

/-- C2: `doOneShot` returns false if and only if force-reload is enabled and
`shotCount` has reached `shotLimit`; in that case it changes no state and
drives no output; in every other case it returns true and it increments
`shotCount` exactly when force-reload is enabled. -/
theorem doOneShot_contract (m : Machine) :
    ((doOneShot m).1 = false ↔
      m.settings.forceReload = true ∧ m.settings.shotLimit ≤ m.shotCount) ∧
    ((doOneShot m).1 = false → (doOneShot m).2.1 = m ∧ (doOneShot m).2.2 = []) ∧
    ((doOneShot m).1 = true →
      (doOneShot m).2.1.shotCount =
        (if m.settings.forceReload then m.shotCount + 1 else m.shotCount)) := by
  cases hf : m.settings.forceReload <;>
    by_cases hl : m.settings.shotLimit ≤ m.shotCount <;>
      simp [doOneShot, hf, hl]

/-- Witness for C2: with the default settings and the limit reached,
`doOneShot` reports failure and leaves the machine untouched. -/
theorem doOneShot_contract_witness :
    (doOneShot { mSemi29 with shotCount := 30 }).1 = false ∧
    (doOneShot { mSemi29 with shotCount := 30 }).2.1 = { mSemi29 with shotCount := 30 } := by
  have h := doOneShot_contract { mSemi29 with shotCount := 30 }
  have hf := h.1.mpr ⟨rfl, by decide⟩
  exact ⟨hf, (h.2.1 hf).1⟩

/- C9: transitions out of IDLE on a trigger press. -/

/-- C9 counterexample: from IDLE with the fire selector in the auto position
and a stale burst counter of 3 (as left behind by a completed burst), a
trigger press enters FULL_AUTO with the burst counter still 3, not 0:
`transitionToStatusFullAuto` does not reset `currBurstShotCount`. -/
theorem fullAuto_entry_keeps_burst_counter :
    (manageStatusIdle pinsTriggerPulled mIdleAfterBurst).status = STATUS_FULL_AUTO ∧
    (manageStatusIdle pinsTriggerPulled mIdleAfterBurst).currBurstShotCount = 3 ∧
    ¬(manageStatusIdle pinsTriggerPulled mIdleAfterBurst).currBurstShotCount = 0 := by
  decide

/-- C9 amended: on a trigger press from IDLE the machine goes to FULL_AUTO
when the fire selector is in the auto position — leaving the burst counter
untouched — and otherwise to SEMI_AUTO, resetting the burst counter to 0. -/
theorem idle_trigger_press_transitions (live : Pins) (m : Machine)
    (_hst : m.status = STATUS_IDLE) (htr : isTriggerPressed live = true) :
    (isFireSelectorInAutoPosition m = true →
      (manageStatusIdle live m).status = STATUS_FULL_AUTO ∧
      (manageStatusIdle live m).currBurstShotCount = m.currBurstShotCount) ∧
    (isFireSelectorInAutoPosition m = false →
      (manageStatusIdle live m).status = STATUS_SEMI_AUTO ∧
      (manageStatusIdle live m).currBurstShotCount = 0) := by
  cases hs : isFireSelectorInAutoPosition m <;>
    simp [manageStatusIdle, htr, hs, transitionToStatusFullAuto, transitionToStatusSemiAuto]

/-- Witness for the amended C9: selector not in auto, trigger pressed from
IDLE enters SEMI_AUTO with the burst counter cleared. -/
theorem idle_trigger_press_transitions_witness :
    (manageStatusIdle pinsTriggerPulled mIdleSelectorSemi).status = STATUS_SEMI_AUTO ∧
    (manageStatusIdle pinsTriggerPulled mIdleSelectorSemi).currBurstShotCount = 0 := by
  have h := idle_trigger_press_transitions pinsTriggerPulled mIdleSelectorSemi rfl rfl
  exact h.2 rfl

/- C3: which raw samples a loop iteration depends on. -/

/-- C3 counterexample: two loop iterations from the same IDLE state with
identical start-of-iteration snapshots (and identical times and menu inputs)
end in different states, because `isTriggerPressed` re-samples the raw
trigger pin (`digitalRead(triggerPin)`) at decision time: the trigger is not
part of the debounced snapshot at all. -/
theorem loop_resamples_raw_trigger :
    loopInTriggerPulled.snap = loopInTriggerIdle.snap ∧
    loopInTriggerPulled.timeNow = loopInTriggerIdle.timeNow ∧
    loopInTriggerPulled.menuIn = loopInTriggerIdle.menuIn ∧
    (loopStep loopInTriggerPulled mBoot).1.status = STATUS_SEMI_AUTO ∧
    (loopStep loopInTriggerIdle mBoot).1.status = STATUS_IDLE := by
  decide

theorem manageStatusIdle_live_congr (live live' : Pins) (h : live.trigger = live'.trigger)
    (m : Machine) : manageStatusIdle live m = manageStatusIdle live' m := by
  unfold manageStatusIdle isTriggerPressed
  rw [h]

theorem manageStatusSemiAuto_live_congr (live live' : Pins) (h : live.trigger = live'.trigger)
    (m : Machine) : manageStatusSemiAuto live m = manageStatusSemiAuto live' m := by
  unfold manageStatusSemiAuto isTriggerPressed
  rw [h]

theorem manageStatusFullAuto_live_congr (live live' : Pins) (h : live.trigger = live'.trigger)
    (m : Machine) : manageStatusFullAuto live m = manageStatusFullAuto live' m := by
  unfold manageStatusFullAuto isTriggerPressed
  rw [h]

/-- C3 amended: within one loop iteration, every handler decision is a
function of the debounced snapshot taken by `readAllButtons` at the start of
the iteration (fire selector, magazine, joystick are never re-sampled) plus
the RAW trigger level at decision time: two iterations agreeing on the
snapshot, the time, the menu input and the raw trigger level are identical,
whatever the other raw pin levels are at decision time. -/
theorem loop_snapshot_and_raw_trigger_determine_step (m : Machine) (a b : LoopIn)
    (ht : a.timeNow = b.timeNow) (hs : a.snap = b.snap) (hm : a.menuIn = b.menuIn)
    (htr : a.live.trigger = b.live.trigger) :
    loopStep a m = loopStep b m := by
  obtain ⟨ta, sa, la, mia⟩ := a
  obtain ⟨tb, sb, lb, mib⟩ := b
  simp only at ht hs hm htr
  subst ht hs hm
  simp only [loopStep]
  rw [manageStatusIdle_live_congr la lb htr, manageStatusSemiAuto_live_congr la lb htr,
    manageStatusFullAuto_live_congr la lb htr]

/-- Witness for the amended C3: changing a non-trigger raw level at decision
time does not change the iteration. -/
theorem loop_snapshot_and_raw_trigger_determine_step_witness :
    loopStep loopInTriggerPulled mBoot = loopStep loopInTriggerPulledJoyHeld mBoot :=
  loop_snapshot_and_raw_trigger_determine_step mBoot loopInTriggerPulled
    loopInTriggerPulledJoyHeld rfl rfl rfl rfl

/- C7: the shot-count/shot-limit bound. -/

/-- C7 counterexample: a concrete power-on run — fire one 3-shot SEMI_AUTO
burst, enter the menu, save a shot limit of 1 — ends with `shotCount = 3`
above `shotLimit = 1`: the menu commit does not preserve
`shotCount ≤ shotLimit`. -/
theorem menu_commit_breaks_shot_limit_bound :
    mBoot.shotCount ≤ mBoot.settings.shotLimit ∧
    (runLoop shotLimitRun mBoot).1.shotCount = 3 ∧
    (runLoop shotLimitRun mBoot).1.settings.shotLimit = 1 ∧
    ¬(runLoop shotLimitRun mBoot).1.shotCount ≤
        (runLoop shotLimitRun mBoot).1.settings.shotLimit := by
  decide

/-- C7 amended: `0 ≤ shotCount` always holds (it is a natural); firing a shot
(`doOneShot`) and a RELOAD cycle (`manageStatusReload`) preserve
`shotCount ≤ shotLimit`; the menu commit leaves `shotCount` unchanged but may
replace `shotLimit` with a smaller value, so it does not preserve the bound. -/
theorem shot_limit_bound_amended (m : Machine) (mi : MenuIn)
    (h : m.shotCount ≤ m.settings.shotLimit) :
    (doOneShot m).2.1.shotCount ≤ (doOneShot m).2.1.settings.shotLimit ∧
    (manageStatusReload m).shotCount ≤ (manageStatusReload m).settings.shotLimit ∧
    (manageStatusMenu mi m).shotCount = m.shotCount := by
  refine ⟨?_, ?_, ?_⟩
  · cases hf : m.settings.forceReload
    · simp [doOneShot, hf, h]
    · by_cases hl : m.settings.shotLimit ≤ m.shotCount
      · simp [doOneShot, hf, hl, h]
      · simp [doOneShot, hf, hl]
        omega
  · unfold manageStatusReload transitionToStatusIdle
    split_ifs <;> simp [h]
  · unfold manageStatusMenu saveNewSettingsToEepromAndDisplayExitMessage transitionToStatusIdle
    split_ifs <;> rfl

/-- Witness for the amended C7 at the freshly booted machine. -/
theorem shot_limit_bound_amended_witness :
    (doOneShot mBoot).2.1.shotCount ≤ (doOneShot mBoot).2.1.settings.shotLimit ∧
    (manageStatusReload mBoot).shotCount ≤ (manageStatusReload mBoot).settings.shotLimit ∧
    (manageStatusMenu menuContinue mBoot).shotCount = mBoot.shotCount :=
  shot_limit_bound_amended mBoot menuContinue (by decide)

/- C1: the forced-reload arithmetic of a SEMI_AUTO burst. -/

theorem shotsFired_shotPulse (s : Settings) : shotsFired (shotPulse s) = 1 := by
  cases hm : s.muzzleFlash <;> simp [shotPulse, hm, shotsFired, SOLENOID_ON, SOLENOID_OFF]

/-- C1: in SEMI_AUTO with force-reload enabled, `shotCount = 29`,
`shotLimit = 30` and `burstSize = 3`, the burst loop fires exactly one shot
on its first iteration (raising `shotCount` to 30) and stays in SEMI_AUTO;
the next iteration fires nothing and transitions to RELOAD — before either
of the 2 remaining burst shots. -/
theorem semiAuto_forced_reload_burst (live : Pins) (m : Machine)
    (hfr : m.settings.forceReload = true) (hsl : m.settings.shotLimit = 30)
    (hnb : m.settings.numShotsPerBurst = 3) (hsc : m.shotCount = 29)
    (hbc : m.currBurstShotCount = 0) (hst : m.status = STATUS_SEMI_AUTO) :
    shotsFired (manageStatusSemiAuto live m).2 = 1 ∧
    (manageStatusSemiAuto live m).1.shotCount = 30 ∧
    (manageStatusSemiAuto live m).1.status = STATUS_SEMI_AUTO ∧
    ∀ live2 : Pins,
      (manageStatusSemiAuto live2 (manageStatusSemiAuto live m).1).1.status = STATUS_RELOAD ∧
      shotsFired (manageStatusSemiAuto live2 (manageStatusSemiAuto live m).1).2 = 0 := by
  have h1 : manageStatusSemiAuto live m =
      ({ m with shotCount := m.shotCount + 1,
                currBurstShotCount := m.currBurstShotCount + 1 }, shotPulse m.settings) := by
    unfold manageStatusSemiAuto doNextShotAndGoToStatusReloadIfShotError doOneShot
    simp [hfr, hnb, hbc, hsl, hsc]
  have e1 : (manageStatusSemiAuto live m).2 = shotPulse m.settings := by rw [h1]
  have e2 : (manageStatusSemiAuto live m).1 =
      { m with shotCount := m.shotCount + 1,
               currBurstShotCount := m.currBurstShotCount + 1 } := by rw [h1]
  rw [e1, e2]
  refine ⟨shotsFired_shotPulse m.settings, by simp [hsc], by simp [hst], fun live2 => ?_⟩
  have h2 : manageStatusSemiAuto live2
      ({ m with shotCount := m.shotCount + 1,
                currBurstShotCount := m.currBurstShotCount + 1 }) =
      (transitionToStatusReload
        { m with shotCount := m.shotCount + 1,
                 currBurstShotCount := m.currBurstShotCount + 1 }, []) := by
    unfold manageStatusSemiAuto doNextShotAndGoToStatusReloadIfShotError doOneShot
    simp [hfr, hnb, hbc, hsl, hsc]
  constructor
  · rw [h2]
    rfl
  · rw [h2]
    rfl

/-- Witness for C1 at the concrete machine `mSemi29`. -/
theorem semiAuto_forced_reload_burst_witness :
    shotsFired (manageStatusSemiAuto pinsIdle mSemi29).2 = 1 ∧
    (manageStatusSemiAuto pinsIdle mSemi29).1.shotCount = 30 ∧
    (manageStatusSemiAuto pinsIdle
      (manageStatusSemiAuto pinsIdle mSemi29).1).1.status = STATUS_RELOAD := by
  have h := semiAuto_forced_reload_burst pinsIdle mSemi29 rfl rfl rfl rfl rfl rfl
  exact ⟨h.1, h.2.1, (h.2.2.2 pinsIdle).1⟩

/- C5: the press-edge detector fires exactly once per press cycle. -/

theorem thereIsANewPress_released (bd : ButtonData) :
    thereIsANewPress { bd with lastValidStatus := BUTTON_RELEASED } =
      (false, { bd with lastValidStatus := BUTTON_RELEASED, precStatusIsPressed := false }) := by
  simp [thereIsANewPress, BUTTON_RELEASED, BUTTON_PRESSED]

theorem thereIsANewPress_pressed_latched (bd : ButtonData) (h : bd.precStatusIsPressed = true) :
    thereIsANewPress { bd with lastValidStatus := BUTTON_PRESSED } =
      (false, { bd with lastValidStatus := BUTTON_PRESSED }) := by
  simp [thereIsANewPress, h]

theorem thereIsANewPress_pressed_new (bd : ButtonData) (h : bd.precStatusIsPressed = false) :
    thereIsANewPress { bd with lastValidStatus := BUTTON_PRESSED } =
      (true, { bd with lastValidStatus := BUTTON_PRESSED, precStatusIsPressed := true }) := by
  simp [thereIsANewPress, h]

theorem runEdgePolls_released (n : Nat) :
    ∀ bd : ButtonData, runEdgePolls bd (List.replicate n BUTTON_RELEASED) =
      List.replicate n false := by
  induction n with
  | zero => intro bd; rfl
  | succ k ih =>
    intro bd
    rw [List.replicate_succ, List.replicate_succ]
    simp only [runEdgePolls, thereIsANewPress_released]
    rw [ih]

theorem runEdgePolls_held (k n : Nat) :
    ∀ bd : ButtonData, bd.precStatusIsPressed = true →
      runEdgePolls bd (List.replicate k BUTTON_PRESSED ++ List.replicate n BUTTON_RELEASED) =
        List.replicate (k + n) false := by
  induction k with
  | zero =>
    intro bd _
    simpa using runEdgePolls_released n bd
  | succ j ih =>
    intro bd h
    rw [List.replicate_succ, List.cons_append]
    simp only [runEdgePolls, thereIsANewPress_pressed_latched _ h]
    rw [ih { bd with lastValidStatus := BUTTON_PRESSED } h,
      show j + 1 + n = (j + n) + 1 from by omega, List.replicate_succ]

/-- C5: over one press-hold-release-hold cycle of the debounced state —
pressed for `k + 1` polls then released for `n` polls, starting with the
edge latch clear — `thereIsANewPress` returns true on exactly the first poll
and false on every other poll of the cycle. -/
theorem newPress_exactly_once (bd : ButtonData) (k n : Nat)
    (h : bd.precStatusIsPressed = false) :
    runEdgePolls bd
        (List.replicate (k + 1) BUTTON_PRESSED ++ List.replicate n BUTTON_RELEASED) =
      true :: List.replicate (k + n) false := by
  rw [List.replicate_succ, List.cons_append]
  simp only [runEdgePolls, thereIsANewPress_pressed_new _ h]
  rw [runEdgePolls_held k n _ rfl]

/-- Witness for C5: a concrete 3-pressed/2-released cycle yields one true. -/
theorem newPress_exactly_once_witness :
    runEdgePolls initButtonData
        (List.replicate 3 BUTTON_PRESSED ++ List.replicate 2 BUTTON_RELEASED) =
      true :: List.replicate 4 false :=
  newPress_exactly_once initButtonData 2 2 rfl

/- C6: debounce stability. -/

theorem readButton_buttonStatus (t : Nat) (v : Level) (bd : ButtonData) :
    (readButtonWithDebouncing t v bd).buttonStatus = v := by
  unfold readButtonWithDebouncing
  by_cases h : v ≠ bd.buttonStatus
  · rw [if_pos h]
    dsimp only
    split <;> rfl
  · rw [if_neg h]
    dsimp only
    have h2 : v = bd.buttonStatus := not_not.mp h
    split <;> simp [h2]

theorem readButton_startTime (t : Nat) (v : Level) (bd : ButtonData) :
    (readButtonWithDebouncing t v bd).startTimeMs =
      (if v = bd.buttonStatus then bd.startTimeMs else t) := by
  unfold readButtonWithDebouncing
  by_cases h : v ≠ bd.buttonStatus
  · rw [if_pos h, if_neg h]
    dsimp only
    split <;> rfl
  · rw [if_neg h, if_pos (not_not.mp h)]
    dsimp only
    split <;> rfl

theorem lastValid_change_window (bd : ButtonData) (t : Nat) (v : Level)
    (hch : (readButtonWithDebouncing t v bd).lastValidStatus ≠ bd.lastValidStatus) :
    buttonsDebouncingTimeMs < usub t (readButtonWithDebouncing t v bd).startTimeMs := by
  unfold readButtonWithDebouncing at hch ⊢
  by_cases hraw : v ≠ bd.buttonStatus
  · simp only [if_pos hraw] at hch ⊢
    by_cases hc : buttonsDebouncingTimeMs < usub t t
    · simpa [if_pos hc] using hc
    · simp only [if_neg hc] at hch
      exact absurd rfl hch
  · simp only [if_neg hraw] at hch ⊢
    by_cases hc : buttonsDebouncingTimeMs < usub t bd.startTimeMs
    · simpa [if_pos hc] using hc
    · simp only [if_neg hc] at hch
      exact absurd rfl hch

theorem runHold_lastValid (v : Level) (t0 : Nat) :
    ∀ (ts : List Nat) (bd : ButtonData), bd.buttonStatus = v → bd.startTimeMs = t0 →
      (∀ t ∈ ts, t < U32 ∧ t0 ≤ t) →
      (runHold v bd ts).buttonStatus = v ∧ (runHold v bd ts).startTimeMs = t0 ∧
      (runHold v bd ts).lastValidStatus =
        (if ts.any (fun t => buttonsDebouncingTimeMs < t - t0) then v
         else bd.lastValidStatus) := by
  intro ts
  induction ts with
  | nil =>
    intro bd h1 h2 _
    simp [runHold, h1, h2]
  | cons t rest ih =>
    intro bd h1 h2 hb
    have hbt := hb t (List.mem_cons_self t rest)
    have hrest : ∀ x ∈ rest, x < U32 ∧ t0 ≤ x := fun x hx => hb x (List.mem_cons_of_mem _ hx)
    have hread : readButtonWithDebouncing t v bd =
        (if buttonsDebouncingTimeMs < t - t0 then { bd with lastValidStatus := v } else bd) := by
      unfold readButtonWithDebouncing
      rw [if_neg (show ¬v ≠ bd.buttonStatus by simp [h1])]
      dsimp only
      rw [h2, usub_eq_sub hbt.2 hbt.1]
      split_ifs with hw
      · rw [h1]
      · rfl
    simp only [runHold, hread]
    by_cases hw : buttonsDebouncingTimeMs < t - t0
    · rw [if_pos hw]
      obtain ⟨hA, hB, hC⟩ := ih { bd with lastValidStatus := v } (by simp [h1]) (by simp [h2]) hrest
      refine ⟨hA, hB, ?_⟩
      rw [hC]
      by_cases hr : rest.any (fun t => buttonsDebouncingTimeMs < t - t0) <;>
        simp [hr, hw, List.any_cons]
    · rw [if_neg hw]
      obtain ⟨hA, hB, hC⟩ := ih bd h1 h2 hrest
      refine ⟨hA, hB, ?_⟩
      rw [hC]
      simp [List.any_cons, hw]

/-- C6: (i) in general the debounced state (`lastValidStatus`) changes on a
poll only when `now - rawChangeTimeMs` (mod 2^32) exceeds the debounce
window; (ii) after a raw change observed at time `t0` followed by polls that
hold the new value, the debounced state equals the held value exactly when
some later poll falls strictly beyond the window, and is untouched on every
earlier poll. -/
theorem debounce_stability :
    (∀ (bd : ButtonData) (t : Nat) (v : Level),
      (readButtonWithDebouncing t v bd).lastValidStatus ≠ bd.lastValidStatus →
      buttonsDebouncingTimeMs < usub t (readButtonWithDebouncing t v bd).startTimeMs) ∧
    (∀ (bd : ButtonData) (v : Level) (t0 : Nat) (ts : List Nat),
      v ≠ bd.buttonStatus → t0 < U32 → (∀ t ∈ ts, t < U32 ∧ t0 ≤ t) →
      (runHold v (readButtonWithDebouncing t0 v bd) ts).lastValidStatus =
        (if ts.any (fun t => buttonsDebouncingTimeMs < t - t0) then v
         else bd.lastValidStatus)) := by
  refine ⟨lastValid_change_window, fun bd v t0 ts hch ht0 hts => ?_⟩
  have hfirst : readButtonWithDebouncing t0 v bd =
      { bd with startTimeMs := t0, buttonStatus := v } := by
    unfold readButtonWithDebouncing
    simp [hch, usub_self]
  rw [hfirst]
  exact (runHold_lastValid v t0 ts { bd with startTimeMs := t0, buttonStatus := v }
    rfl rfl hts).2.2

/-- Witness for C6: a raw press observed at time 100 is not debounced by the
polls at 120 and 150 but is at 151 (51 ms > 50 ms window); and a concrete
committing poll satisfies the window bound. -/
theorem debounce_stability_witness :
    (runHold Level.low (readButtonWithDebouncing 100 Level.low initButtonData)
        [120, 150]).lastValidStatus = Level.high ∧
    (runHold Level.low (readButtonWithDebouncing 100 Level.low initButtonData)
        [120, 150, 151]).lastValidStatus = Level.low ∧
    buttonsDebouncingTimeMs <
      usub 151 (readButtonWithDebouncing 151 Level.low bdChanged100).startTimeMs := by
  have h1 := debounce_stability.2 initButtonData Level.low 100 [120, 150]
    (by decide) (by decide)
    (by intro t ht
        simp only [List.mem_cons, List.not_mem_nil, or_false] at ht
        rcases ht with rfl | rfl <;> exact ⟨by decide, by decide⟩)
  have h2 := debounce_stability.2 initButtonData Level.low 100 [120, 150, 151]
    (by decide) (by decide)
    (by intro t ht
        simp only [List.mem_cons, List.not_mem_nil, or_false] at ht
        rcases ht with rfl | rfl | rfl <;> exact ⟨by decide, by decide⟩)
  have h3 := debounce_stability.1 bdChanged100 151 Level.low (by decide)
  refine ⟨?_, ?_, h3⟩
  · rw [h1]
    decide
  · rw [h2]
    decide

/- C8: what the press-duration query actually measures. -/

/-- C8 counterexample: with a raw press observed at time 100 and the
debounced state becoming pressed exactly at the poll at time 151, the
elapsed time since the debounced state last became pressed is 0, yet
`buttonPressDuration` returns 51 — it measures from the raw change
(`startTimeMs`), not from the debounced press. -/
theorem pressDuration_counterexample :
    (readButtonWithDebouncing 100 Level.low initButtonData).lastValidStatus ≠ BUTTON_PRESSED ∧
    (readButtonWithDebouncing 151 Level.low
        (readButtonWithDebouncing 100 Level.low initButtonData)).lastValidStatus =
      BUTTON_PRESSED ∧
    buttonPressDuration 151
        (readButtonWithDebouncing 151 Level.low
          (readButtonWithDebouncing 100 Level.low initButtonData)) = 51 ∧
    ¬buttonPressDuration 151
        (readButtonWithDebouncing 151 Level.low
          (readButtonWithDebouncing 100 Level.low initButtonData)) = 0 := by
  decide

theorem runPolls_startTime (polls : List (Nat × Level)) :
    ∀ bd : ButtonData,
      (runPolls bd polls).startTimeMs = lastRawChangeTime bd.buttonStatus bd.startTimeMs polls := by
  induction polls with
  | nil => intro bd; rfl
  | cons p rest ih =>
    obtain ⟨t, v⟩ := p
    intro bd
    simp only [runPolls, lastRawChangeTime]
    rw [ih (readButtonWithDebouncing t v bd), readButton_buttonStatus, readButton_startTime]
    by_cases h : v = bd.buttonStatus <;> simp [h]

/-- C8 amended: `buttonPressDuration` returns 0 whenever the debounced state
is not pressed; whenever it is pressed, it returns the elapsed time (mod
2^32) since the RAW state last changed (`startTimeMs`, which the poll trace
shows equals the last raw-change time) — not since the debounced state
became pressed. -/
theorem pressDuration_amended (bd : ButtonData) (polls : List (Nat × Level)) (now : Nat) :
    (runPolls bd polls).startTimeMs = lastRawChangeTime bd.buttonStatus bd.startTimeMs polls ∧
    buttonPressDuration now (runPolls bd polls) =
      (if (runPolls bd polls).lastValidStatus = BUTTON_PRESSED
       then usub now (lastRawChangeTime bd.buttonStatus bd.startTimeMs polls) else 0) := by
  refine ⟨runPolls_startTime polls bd, ?_⟩
  rw [buttonPressDuration, runPolls_startTime polls bd]

/- C4: the RELOAD cycle. -/

theorem setMagazineObserved_status (b : Bool) (m : Machine) :
    (setMagazineObserved b m).status = m.status := rfl

theorem setMagazineObserved_reloadStatus (b : Bool) (m : Machine) :
    (setMagazineObserved b m).reloadStatus = m.reloadStatus := rfl

theorem setMagazineObserved_shotCount (b : Bool) (m : Machine) :
    (setMagazineObserved b m).shotCount = m.shotCount := rfl

theorem isMagazineButtonPressed_setMagazineObserved (b : Bool) (m : Machine) :
    isMagazineButtonPressed (setMagazineObserved b m) = b := by
  cases b <;> rfl

theorem runReload_not_reload (ms : List Bool) :
    ∀ m : Machine, m.status ≠ STATUS_RELOAD →
      (runReload m ms).status = m.status ∧ (runReload m ms).shotCount = m.shotCount := by
  induction ms with
  | nil => intro m _; exact ⟨rfl, rfl⟩
  | cons b rest ih =>
    intro m h
    simp only [runReload]
    rw [if_neg (by rw [setMagazineObserved_status]; exact h)]
    exact ih (setMagazineObserved b m) h

theorem runReload_waiting_in (ms : List Bool) :
    ∀ m : Machine, m.status = STATUS_RELOAD →
      m.reloadStatus = RELOAD_WAITING_FOR_MAGAZINE_IN →
      ((runReload m ms).status = STATUS_IDLE ↔
        ∃ j, j < ms.length ∧ ms.getD j false = true) ∧
      ((runReload m ms).status = STATUS_IDLE → (runReload m ms).shotCount = 0) ∧
      ((runReload m ms).status = STATUS_RELOAD ∨ (runReload m ms).status = STATUS_IDLE) := by
  induction ms with
  | nil =>
    intro m h1 _
    refine ⟨?_, ?_, Or.inl h1⟩
    · simp only [runReload, h1, List.length_nil]
      constructor
      · intro hco
        exact absurd hco (by decide)
      · rintro ⟨j, hj, _⟩
        omega
    · simp only [runReload, h1]
      intro hco
      exact absurd hco (by decide)
  | cons b rest ih =>
    intro m h1 h2
    simp only [runReload]
    rw [if_pos (by rw [setMagazineObserved_status]; exact h1)]
    cases b
    · have hstep : manageStatusReload (setMagazineObserved false m) =
          setMagazineObserved false m := by
        unfold manageStatusReload
        rw [if_neg (by rw [setMagazineObserved_reloadStatus, h2]; decide),
          if_pos (by rw [setMagazineObserved_reloadStatus]; exact h2),
          if_neg (by rw [isMagazineButtonPressed_setMagazineObserved]; decide)]
      rw [hstep]
      have hm := ih (setMagazineObserved false m)
        (by rw [setMagazineObserved_status]; exact h1)
        (by rw [setMagazineObserved_reloadStatus]; exact h2)
      refine ⟨?_, hm.2.1, hm.2.2⟩
      rw [hm.1]
      constructor
      · rintro ⟨j, hj, hv⟩
        refine ⟨j + 1, by simp only [List.length_cons]; omega, ?_⟩
        simpa [List.getD_cons_succ] using hv
      · rintro ⟨j, hj, hv⟩
        cases j with
        | zero => exact absurd hv (by simp)
        | succ j' =>
          refine ⟨j', ?_, ?_⟩
          · simp only [List.length_cons] at hj
            omega
          · simpa [List.getD_cons_succ] using hv
    · have hstep : manageStatusReload (setMagazineObserved true m) =
          transitionToStatusIdle { setMagazineObserved true m with shotCount := 0 } := by
        unfold manageStatusReload
        rw [if_neg (by rw [setMagazineObserved_reloadStatus, h2]; decide),
          if_pos (by rw [setMagazineObserved_reloadStatus]; exact h2),
          if_pos (by rw [isMagazineButtonPressed_setMagazineObserved])]
      rw [hstep]
      have hnr := runReload_not_reload rest
        (transitionToStatusIdle { setMagazineObserved true m with shotCount := 0 })
        (by simp [transitionToStatusIdle, STATUS_IDLE, STATUS_RELOAD])
      refine ⟨⟨fun _ => ⟨0, by simp, rfl⟩, fun _ => hnr.1.trans rfl⟩,
        fun _ => hnr.2.trans rfl, Or.inr (hnr.1.trans rfl)⟩

theorem runReload_waiting_out (ms : List Bool) :
    ∀ m : Machine, m.status = STATUS_RELOAD →
      m.reloadStatus = RELOAD_WAITING_FOR_MAGAZINE_OUT →
      ((runReload m ms).status = STATUS_IDLE ↔
        ∃ i j, i < j ∧ j < ms.length ∧ ms.getD i true = false ∧ ms.getD j false = true) ∧
      ((runReload m ms).status = STATUS_IDLE → (runReload m ms).shotCount = 0) ∧
      ((runReload m ms).status = STATUS_RELOAD ∨ (runReload m ms).status = STATUS_IDLE) := by
  induction ms with
  | nil =>
    intro m h1 _
    refine ⟨?_, ?_, Or.inl h1⟩
    · simp only [runReload, h1, List.length_nil]
      constructor
      · intro hco
        exact absurd hco (by decide)
      · rintro ⟨i, j, _, hj, _⟩
        omega
    · simp only [runReload, h1]
      intro hco
      exact absurd hco (by decide)
  | cons b rest ih =>
    intro m h1 h2
    simp only [runReload]
    rw [if_pos (by rw [setMagazineObserved_status]; exact h1)]
    cases b
    · -- magazine observed absent: advance to the waiting-for-reinsertion phase
      have hstep : manageStatusReload (setMagazineObserved false m) =
          { setMagazineObserved false m with
            reloadStatus := RELOAD_WAITING_FOR_MAGAZINE_IN } := by
        unfold manageStatusReload
        rw [if_pos (by rw [setMagazineObserved_reloadStatus]; exact h2),
          if_pos (by rw [isMagazineButtonPressed_setMagazineObserved]; decide)]
      rw [hstep]
      have hm := runReload_waiting_in rest
        { setMagazineObserved false m with reloadStatus := RELOAD_WAITING_FOR_MAGAZINE_IN }
        h1 rfl
      refine ⟨?_, hm.2.1, hm.2.2⟩
      rw [hm.1]
      constructor
      · rintro ⟨j, hj, hv⟩
        refine ⟨0, j + 1, by omega, by simp only [List.length_cons]; omega, rfl, ?_⟩
        simpa [List.getD_cons_succ] using hv
      · rintro ⟨i, j, hij, hj, _, hv⟩
        cases j with
        | zero => omega
        | succ j' =>
          refine ⟨j', ?_, ?_⟩
          · simp only [List.length_cons] at hj
            omega
          · simpa [List.getD_cons_succ] using hv
    · -- magazine observed present: stay in the waiting-for-removal phase
      have hstep : manageStatusReload (setMagazineObserved true m) =
          setMagazineObserved true m := by
        unfold manageStatusReload
        rw [if_pos (by rw [setMagazineObserved_reloadStatus]; exact h2),
          if_neg (by rw [isMagazineButtonPressed_setMagazineObserved]; decide)]
      rw [hstep]
      have hm := ih (setMagazineObserved true m)
        (by rw [setMagazineObserved_status]; exact h1)
        (by rw [setMagazineObserved_reloadStatus]; exact h2)
      refine ⟨?_, hm.2.1, hm.2.2⟩
      rw [hm.1]
      constructor
      · rintro ⟨i, j, hij, hj, hvi, hvj⟩
        refine ⟨i + 1, j + 1, by omega, by simp only [List.length_cons]; omega, ?_, ?_⟩
        · simpa [List.getD_cons_succ] using hvi
        · simpa [List.getD_cons_succ] using hvj
      · rintro ⟨i, j, hij, hj, hvi, hvj⟩
        cases i with
        | zero => exact absurd hvi (by simp)
        | succ i' =>
          cases j with
          | zero => omega
          | succ j' =>
            refine ⟨i', j', by omega, ?_, ?_, ?_⟩
            · simp only [List.length_cons] at hj
              omega
            · simpa [List.getD_cons_succ] using hvi
            · simpa [List.getD_cons_succ] using hvj

/-- C4: for every execution entering RELOAD (`transitionToStatusReload`) and
every trace of per-cycle debounced magazine observations, the machine stays
in RELOAD or reaches IDLE; it reaches IDLE exactly when the magazine is
observed "not present" on some cycle and "present" on a later cycle (so an
all-"present" trace never completes the reload); and `shotCount` is 0 at the
transition to IDLE. -/
theorem reload_cycle_spec (m : Machine) (ms : List Bool) :
    ((runReload (transitionToStatusReload m) ms).status = STATUS_RELOAD ∨
     (runReload (transitionToStatusReload m) ms).status = STATUS_IDLE) ∧
    ((runReload (transitionToStatusReload m) ms).status = STATUS_IDLE ↔
      ∃ i j, i < j ∧ j < ms.length ∧ ms.getD i true = false ∧ ms.getD j false = true) ∧
    ((runReload (transitionToStatusReload m) ms).status = STATUS_IDLE →
      (runReload (transitionToStatusReload m) ms).shotCount = 0) := by
  have h := runReload_waiting_out ms (transitionToStatusReload m) rfl rfl
  exact ⟨h.2.2, h.1, h.2.1⟩

/-- Witness for C4: a remove-then-reinsert trace completes the reload with
`shotCount` reset to 0. -/
theorem reload_cycle_spec_witness :
    (runReload (transitionToStatusReload mSemi29) [true, false, true]).status = STATUS_IDLE ∧
    (runReload (transitionToStatusReload mSemi29) [true, false, true]).shotCount = 0 := by
  have h := reload_cycle_spec mSemi29 [true, false, true]
  have hidle := h.2.1.mpr ⟨1, 2, by omega, by decide, by decide, by decide⟩
  exact ⟨hidle, h.2.2 hidle⟩

/- C10: with force-reload disabled the machine cannot reach RELOAD. -/

theorem doOneShot_noForce (m : Machine) (h : m.settings.forceReload = false) :
    doOneShot m = (true, m, shotPulse m.settings) := by
  unfold doOneShot
  rw [if_neg (by simp [h])]

theorem manageStatusIdle_no_reload (live : Pins) (m : Machine)
    (hst : m.status ≠ STATUS_RELOAD) :
    (manageStatusIdle live m).settings = m.settings ∧
    (manageStatusIdle live m).status ≠ STATUS_RELOAD := by
  unfold manageStatusIdle thereIsANewJoySelectPress transitionToStatusFullAuto
    transitionToStatusSemiAuto transitionToStatusMenu
  dsimp only
  split_ifs <;>
    simp_all [STATUS_FULL_AUTO, STATUS_SEMI_AUTO, STATUS_MENU, STATUS_RELOAD]

theorem manageStatusSemiAuto_no_reload (live : Pins) (m : Machine)
    (hfr : m.settings.forceReload = false) (hst : m.status ≠ STATUS_RELOAD) :
    (manageStatusSemiAuto live m).1.settings = m.settings ∧
    (manageStatusSemiAuto live m).1.status ≠ STATUS_RELOAD := by
  unfold manageStatusSemiAuto doNextShotAndGoToStatusReloadIfShotError
  rw [doOneShot_noForce m hfr]
  dsimp only
  split_ifs <;>
    simp_all [transitionToStatusIdle, transitionToStatusBinaryTriggerTail,
      STATUS_IDLE, STATUS_BINARY_TRIGGER_TAIL, STATUS_RELOAD]

theorem manageStatusFullAuto_no_reload (live : Pins) (m : Machine)
    (hfr : m.settings.forceReload = false) (hst : m.status ≠ STATUS_RELOAD) :
    (manageStatusFullAuto live m).1.settings = m.settings ∧
    (manageStatusFullAuto live m).1.status ≠ STATUS_RELOAD := by
  unfold manageStatusFullAuto
  rw [doOneShot_noForce m hfr]
  dsimp only
  split_ifs <;>
    simp_all [transitionToStatusIdle, transitionToStatusReload, STATUS_IDLE, STATUS_RELOAD]

theorem manageStatusBinaryTriggerTail_no_reload (m : Machine)
    (hfr : m.settings.forceReload = false) (hst : m.status ≠ STATUS_RELOAD) :
    (manageStatusBinaryTriggerTail m).1.settings = m.settings ∧
    (manageStatusBinaryTriggerTail m).1.status ≠ STATUS_RELOAD := by
  unfold manageStatusBinaryTriggerTail doNextShotAndGoToStatusReloadIfShotError
  rw [doOneShot_noForce m hfr]
  dsimp only
  split_ifs <;>
    simp_all [transitionToStatusIdle, STATUS_IDLE, STATUS_RELOAD]

theorem manageStatusMenu_no_reload (mi : MenuIn) (m : Machine)
    (hfr : m.settings.forceReload = false) (htmp : mi.tempSettings.forceReload = false)
    (hst : m.status ≠ STATUS_RELOAD) :
    (manageStatusMenu mi m).settings.forceReload = false ∧
    (manageStatusMenu mi m).status ≠ STATUS_RELOAD := by
  unfold manageStatusMenu saveNewSettingsToEepromAndDisplayExitMessage commitSettings
    transitionToStatusIdle
  dsimp only
  split_ifs <;> simp_all [STATUS_IDLE, STATUS_RELOAD]

theorem loopStep_no_reload (inp : LoopIn) (m : Machine)
    (hfr : m.settings.forceReload = false)
    (htmp : inp.menuIn.tempSettings.forceReload = false)
    (hst : m.status ≠ STATUS_RELOAD) :
    (loopStep inp m).1.settings.forceReload = false ∧
    (loopStep inp m).1.status ≠ STATUS_RELOAD := by
  unfold loopStep
  dsimp only
  split_ifs with h1 h2 h3 h4 h5 h6
  · have h := manageStatusIdle_no_reload inp.live (readAllButtons inp.timeNow inp.snap m) hst
    exact ⟨by rw [h.1]; exact hfr, h.2⟩
  · have h := manageStatusFullAuto_no_reload inp.live (readAllButtons inp.timeNow inp.snap m)
      hfr hst
    exact ⟨by rw [h.1]; exact hfr, h.2⟩
  · have h := manageStatusSemiAuto_no_reload inp.live (readAllButtons inp.timeNow inp.snap m)
      hfr hst
    exact ⟨by rw [h.1]; exact hfr, h.2⟩
  · have h := manageStatusBinaryTriggerTail_no_reload (readAllButtons inp.timeNow inp.snap m)
      hfr hst
    exact ⟨by rw [h.1]; exact hfr, h.2⟩
  · exact absurd h5 hst
  · exact manageStatusMenu_no_reload inp.menuIn (readAllButtons inp.timeNow inp.snap m)
      hfr htmp hst
  · exact ⟨hfr, hst⟩

theorem runLoop_no_reload (inps : List LoopIn) :
    ∀ m : Machine, m.settings.forceReload = false →
      (∀ i ∈ inps, i.menuIn.tempSettings.forceReload = false) →
      m.status ≠ STATUS_RELOAD →
      (runLoop inps m).1.settings.forceReload = false ∧
      (runLoop inps m).1.status ≠ STATUS_RELOAD := by
  induction inps with
  | nil =>
    intro m hfr _ hst
    exact ⟨hfr, hst⟩
  | cons inp rest ih =>
    intro m hfr hall hst
    simp only [runLoop]
    have hstep := loopStep_no_reload inp m hfr (hall inp (List.mem_cons_self _ _)) hst
    exact ih (loopStep inp m).1 hstep.1 (fun i hi => hall i (List.mem_cons_of_mem _ hi)) hstep.2

/-- C10: while force-reload is disabled (initially and through every menu
snapshot it could commit), `doOneShot` always returns true and leaves
`shotCount` unchanged, and a machine not already in RELOAD never reaches the
RELOAD state over any run of the loop. -/
theorem no_reload_without_force (m : Machine) (inps : List LoopIn)
    (hfr : m.settings.forceReload = false)
    (htmp : ∀ i ∈ inps, i.menuIn.tempSettings.forceReload = false)
    (hst : m.status ≠ STATUS_RELOAD) :
    ((doOneShot m).1 = true ∧ (doOneShot m).2.1.shotCount = m.shotCount) ∧
    (runLoop inps m).1.status ≠ STATUS_RELOAD := by
  refine ⟨⟨?_, ?_⟩, (runLoop_no_reload inps m hfr htmp hst).2⟩ <;>
    rw [doOneShot_noForce m hfr]

/-- Witness for C10: one loop iteration with the trigger pulled and
force-reload disabled fires and ends outside RELOAD. -/
theorem no_reload_without_force_witness :
    (doOneShot (initialMachine noForceSettings)).1 = true ∧
    (runLoop [loopInNoForce] (initialMachine noForceSettings)).1.status ≠ STATUS_RELOAD := by
  have h := no_reload_without_force (initialMachine noForceSettings) [loopInNoForce] rfl
    (by intro i hi
        simp only [List.mem_cons, List.not_mem_nil, or_false] at hi
        rw [hi]
        rfl)
    (by decide)
  exact ⟨h.1.1, h.2⟩

end OpenFCU
